import Mathlib

/-!
Verification of the redis-sentinel-proxy core (main.go) against its
specification.  The Go program is shallowly embedded: the network is an
oracle record `NetEnv`, nullable `*net.TCPAddr` pointers are `Option TCPAddr`,
and the stateful tracker loop (`update_master`) is a step function on an
explicit `TrackerState` that also emits a trace of observable events
(log lines, channel closes, channel replacements, sleeps).
-/

namespace RSProxy

/-- A resolved TCP address, modelling the host/port payload of a non-nil
Go `*net.TCPAddr`.  `host` is the textual IP as produced by `IP.String()`. -/
structure TCPAddr where
  host : String
  port : Nat
  deriving DecidableEq, Repr

/-- Go `net.JoinHostPort`: brackets the host when it contains a colon
(IPv6 literal), otherwise plain `host:port`.  The colon test is over the
character list of the host. -/
def joinHostPort (host port : String) : String :=
  if host.data.contains ':' then "[" ++ host ++ "]:" ++ port else host ++ ":" ++ port

/-- Go `(*net.TCPAddr).String()` for a non-nil receiver: `JoinHostPort` of the
IP text and the decimal port. -/
def TCPAddr.render (a : TCPAddr) : String :=
  joinHostPort a.host (toString a.port)

/-- Go `(*net.TCPAddr).String()` including the nil receiver, which the
standard library renders as the literal string `<nil>`.  `update_master`
and the dial sites all go through this rendering. -/
def addrString : Option TCPAddr → String
  | none => "<nil>"
  | some a => a.render

/-- Timeout (milliseconds) used by `proxy` when dialing the master
(`ProxyDialTimeout = 50 * time.Millisecond` in main.go). -/
def ProxyDialTimeout : Nat := 50

/-- Timeout (milliseconds) used by discovery dials and the reachability probe
(`DialTimeout = 100 * time.Millisecond` in main.go). -/
def DialTimeout : Nat := 100

/-- The network world as the program observes it.  Each field is one
external effect of the Go `net` package; results depend on the outside
world, so they are oracle functions over address strings. -/
structure NetEnv where
  /-- `net.SplitHostPort`: `none` models a non-nil error. -/
  splitHostPort : String → Option (String × String)
  /-- `net.LookupIP` on a host, giving the textual IPs; `none` is an error. -/
  lookupIP : String → Option (List String)
  /-- `net.ResolveTCPAddr("tcp", addr)`; `none` is a non-nil error. -/
  resolveTCPAddr : String → Option TCPAddr
  /-- `net.DialTimeout(_, addr, timeoutMs)` succeeding, for an address string
  that parses.  Dials of the unparsable string `<nil>` are handled by
  `netDial` below, not by this oracle. -/
  dial : String → Nat → Bool
  /-- the bytes read from a sentinel connection at a given address
  (the 256-byte buffer of `getMasterAddrFromSentinel` as a string, trailing
  zero bytes included); `none` models a read error. -/
  readSentinel : String → Option String
  /-- `net.ListenTCP` on the local address succeeding. -/
  listen : String → Bool

/-- Outcome of `net.DialTimeout` as the program calls it: the address string
`<nil>` (the rendering of a nil `*net.TCPAddr`) has no port separator, so
address parsing fails deterministically before any network activity and the
dial always errors; every other address is decided by the environment. -/
def netDial (env : NetEnv) (addr : String) (timeoutMs : Nat) : Bool :=
  if addr = "<nil>" then false else env.dial addr timeoutMs

/-- Go `strings.Split(s, sep)` specialised to the separator CRLF used by
`getMasterAddrFromSentinelResponse`: leftmost-first, keeps empty segments,
result length = number of separator occurrences + 1. -/
def splitCRLF : List Char → List (List Char)
  | '\r' :: '\n' :: rest => [] :: splitCRLF rest
  | c :: rest =>
    match splitCRLF rest with
    | [] => [[c]]
    | seg :: segs => (c :: seg) :: segs
  | [] => [[]]

/-- The CRLF-split of a response string, as a list of strings. -/
def responsePartsOf (response : String) : List String :=
  (splitCRLF response.data).map (fun l => String.mk l)

/-- Go `net.ResolveTCPAddr` viewed as the two-valued `(addr, err)` return the
call sites consume: success pairs the address with a nil error, failure pairs
a nil address with a non-nil error. -/
def resolveTCPAddrPair (env : NetEnv) (addr : String) : Option TCPAddr × Option String :=
  match env.resolveTCPAddr addr with
  | some a => (some a, none)
  | none => (none, some ("cannot resolve address " ++ addr))

/-- `getMasterAddrFromSentinelResponse` (main.go): split the raw response on
CRLF; fewer than 5 parts is a malformed reply, otherwise resolve
`parts[2]:parts[4]` (plain `%s:%s` formatting, not `JoinHostPort`). -/
def getMasterAddrFromSentinelResponse (env : NetEnv) (response : String) :
    Option TCPAddr × Option String :=
  let responseParts := responsePartsOf response
  if responseParts.length < 5 then
    (none, some "Couldnt get update_master address from sentinel.")
  else
    resolveTCPAddrPair env (responseParts.getD 2 "" ++ ":" ++ responseParts.getD 4 "")

/-- `getMasterAddrFromSentinel` (main.go): dial the sentinel (a possibly-nil
`*net.TCPAddr`, rendered through `addrString`) with `DialTimeout`, send the
discovery command, read the reply, and parse it.  A dial or read failure
is a non-nil error. -/
def getMasterAddrFromSentinel (env : NetEnv) (sentinelAddress : Option TCPAddr) :
    Option TCPAddr × Option String :=
  if netDial env (addrString sentinelAddress) DialTimeout = false then
    (none, some "Sentinel no not respond")
  else
    match env.readSentinel (addrString sentinelAddress) with
    | none => (none, some "Cannot read from sentinel")
    | some response => getMasterAddrFromSentinelResponse env response

/-- `getSentinels` (main.go): split the configured sentinel address, look the
host up in DNS, and build one entry per resolved IP.  A failing
`net.ResolveTCPAddr` on an individual IP is only logged and appends a nil
entry; the trailing `return sentinelsWithPort, err` returns the `err` of the
enclosing scope — the loop-local `err` introduced by `:=` shadows it — which
is nil once `LookupIP` has succeeded. -/
def getSentinels (env : NetEnv) (sentinelAddress : String) :
    Option (List (Option TCPAddr)) × Option String :=
  match env.splitHostPort sentinelAddress with
  | none => (none, some "Cant find Sentinel")
  | some (sentinelHost, sentinelPort) =>
    match env.lookupIP sentinelHost with
    | none => (none, some "Cant lookup Sentinel")
    | some sentinels =>
      (some (sentinels.map fun sentinelIP =>
        env.resolveTCPAddr (joinHostPort sentinelIP sentinelPort)), none)

/-- The candidate loop of `getMasterAddr` (main.go): query each sentinel in
order; an error from `getMasterAddrFromSentinel` is only logged; then probe
the reported address by dialing it with `DialTimeout` and return the first
candidate whose probe succeeds; an exhausted list is `(nil, nil)` — the
`// No available masters.` return. -/
def getMasterAddrLoop (env : NetEnv) : List (Option TCPAddr) → Option TCPAddr × Option String
  | [] => (none, none)
  | sentinelAddress :: rest =>
    let p := getMasterAddrFromSentinel env sentinelAddress
    if netDial env (addrString p.1) DialTimeout = false then
      getMasterAddrLoop env rest
    else
      p

/-- `getMasterAddr` (main.go).  The `masterName` parameter is unused in the
source as well: the discovery command is built from the global flag inside
`getMasterAddrFromSentinel`. -/
def getMasterAddr (env : NetEnv) (sentinelAddress : String) (masterName : String) :
    Option TCPAddr × Option String :=
  match getSentinels env sentinelAddress with
  | (_, some err) => (none, some ("Cant lookup Sentinel: " ++ err))
  | (sentinels, none) => getMasterAddrLoop env (sentinels.getD [])

/-- The zero value of the global `var masterAddr *net.TCPAddr`: nil until the
first successful discovery. -/
def initialMasterAddr : Option TCPAddr := none

/-- The shared state owned by `update_master` (main.go): the global
`masterAddr` and the channel `*masterStopChan` points at.  Channels are
identified by a generation number; `gen` names the currently live channel,
`closes` counts how many `close()` calls have happened so far. -/
structure TrackerState where
  masterAddr : Option TCPAddr
  gen : Nat
  closes : Nat
  deriving DecidableEq, Repr

/-- Observable actions of one `update_master` iteration. -/
inductive TrackerEvent where
  /-- the `[MASTER] Error polling for new master` log line -/
  | logPollError (msg : String)
  /-- the `[MASTER] Master Address changed from old to new` log line -/
  | logChanged (old new : String)
  /-- `close(*masterStopChan)` on the channel of generation `g` -/
  | closeChan (g : Nat)
  /-- `*masterStopChan = make(chan string)`, creating generation `g` -/
  | newChan (g : Nat)
  /-- `time.Sleep` of the given number of milliseconds -/
  | sleep (ms : Nat)
  deriving DecidableEq, Repr

/-- One iteration of the `update_master` loop (main.go), driven by the
result pair of `getMasterAddr` (`Except.error` is the non-nil `err` case).
The change test is Go string comparison `possibleMaster.String() !=
masterAddr.String()`, so a nil candidate compares as the string `<nil>`;
the log line is emitted before `masterAddr` is reassigned, the close of the
current channel precedes the allocation of the fresh one, and the sleep
tier is chosen by the `masterAddr == nil` test after the update. -/
def update_masterStep (st : TrackerState) (res : Except String (Option TCPAddr)) :
    TrackerState × List TrackerEvent :=
  match res with
  | Except.error e => (st, [TrackerEvent.logPollError e, TrackerEvent.sleep 1000])
  | Except.ok possibleMaster =>
    if addrString possibleMaster = addrString st.masterAddr then
      if st.masterAddr.isNone then (st, [TrackerEvent.sleep 1000])
      else (st, [TrackerEvent.sleep 250])
    else
      let st1 : TrackerState :=
        { masterAddr := possibleMaster, gen := st.gen + 1, closes := st.closes + 1 }
      let evs : List TrackerEvent :=
        [TrackerEvent.logChanged (addrString st.masterAddr) (addrString possibleMaster),
         TrackerEvent.closeChan st.gen, TrackerEvent.newChan (st.gen + 1)]
      if possibleMaster.isNone then (st1, evs ++ [TrackerEvent.sleep 1000])
      else (st1, evs ++ [TrackerEvent.sleep 250])

/-- The `update_master` loop run over a finite prefix of discovery results,
accumulating the event trace. -/
def runTracker : TrackerState → List (Except String (Option TCPAddr)) →
    TrackerState × List TrackerEvent
  | st, [] => (st, [])
  | st, r :: rs =>
    let p := update_masterStep st r
    let q := runTracker p.1 rs
    (q.1, p.2 ++ q.2)

/-- The generations whose channel gets closed in a trace, in order. -/
def closedGens (evs : List TrackerEvent) : List Nat :=
  evs.filterMap fun ev =>
    match ev with
    | TrackerEvent.closeChan g => some g
    | _ => none

/-- The number of primary changes `update_master` detects along a list of
successful discovery results, starting from a current address: one per
element whose rendered address differs from the rendering of the address
current at that point. -/
def countChanges (cur : Option TCPAddr) : List (Option TCPAddr) → Nat
  | [] => 0
  | a :: rest =>
    if addrString a = addrString cur then countChanges cur rest
    else countChanges a rest + 1

/-- A proxy session captures the channel generation current when it starts
and is unblocked by a firing of exactly that channel; this counts the
firings of the captured channel in a trace. -/
def sessionObservedFirings (sessionGen : Nat) (evs : List TrackerEvent) : Nat :=
  (closedGens evs).count sessionGen

/-- Observable actions of one `proxy` session (main.go), in program order. -/
inductive ProxyEvent where
  /-- `net.DialTimeout("tcp4", remoteAddr.String(), ProxyDialTimeout)` -/
  | dialAttempt (addr : String) (timeoutMs : Nat)
  /-- the `Can not establish connection` log line -/
  | logNoConn
  /-- `local.Close()` -/
  | closeLocal
  /-- `remote.Close()` -/
  | closeRemote
  /-- `go pipe(...)`: `true` is the client-to-master direction -/
  | startPipe (clientToMaster : Bool)
  /-- the three-way `select` on the stop channel and both pipe channels -/
  | waitSelect
  /-- the `Closing connection` log line -/
  | logClosing
  deriving DecidableEq, Repr

/-- Whether a proxy event is a dial of the master. -/
def isDialAttempt : ProxyEvent → Bool
  | ProxyEvent.dialAttempt _ _ => true
  | _ => false

/-- The `proxy` function (main.go) as its trace of observable actions.
It dials the captured master address (a possibly-nil `*net.TCPAddr`,
rendered via `addrString`) once with `ProxyDialTimeout`; on failure it
logs, closes the client connection and returns without starting a relay;
on success it starts the two `pipe` goroutines, waits on the select, logs,
and the deferred closes run remote-then-local. -/
def proxy (env : NetEnv) (remoteAddr : Option TCPAddr) : List ProxyEvent :=
  if netDial env (addrString remoteAddr) ProxyDialTimeout = false then
    [ProxyEvent.dialAttempt (addrString remoteAddr) ProxyDialTimeout,
     ProxyEvent.logNoConn, ProxyEvent.closeLocal]
  else
    [ProxyEvent.dialAttempt (addrString remoteAddr) ProxyDialTimeout,
     ProxyEvent.startPipe true, ProxyEvent.startPipe false,
     ProxyEvent.waitSelect, ProxyEvent.logClosing,
     ProxyEvent.closeRemote, ProxyEvent.closeLocal]

/-- The configuration values the core consumes from the flag layer. -/
structure Config where
  masterName : String
  localAddr : String
  sentinelAddr : String
  deriving DecidableEq, Repr

/-- `checkArgs` (main.go): a missing master name, then an unresolvable
listen address, are fatal; the result is the fatal message, if any. -/
def checkArgs (env : NetEnv) (cfg : Config) : Option String :=
  if cfg.masterName = "" then
    some "Name of the master redis node is required argument."
  else
    match env.resolveTCPAddr cfg.localAddr with
    | none => some "Failed to resolve local address"
    | some _ => none

/-- Startup actions of `main` (main.go). -/
inductive StartEvent where
  /-- `log.Fatal`: the process exits -/
  | fatalExit (msg : String)
  /-- `go update_master(&masterStopChan)` -/
  | startTracker
  /-- entering the `listener.AcceptTCP()` loop -/
  | startAcceptLoop
  deriving DecidableEq, Repr

/-- The startup sequence of `main` (main.go) after flag parsing and logger
setup: `checkArgs` runs first and a fatal check exits before anything is
started; otherwise the tracker goroutine starts, then `getLocalListener`
either fatals (listen failure) or the accept loop is entered. -/
def mainStartup (env : NetEnv) (cfg : Config) : List StartEvent :=
  match checkArgs env cfg with
  | some msg => [StartEvent.fatalExit msg]
  | none =>
    if env.listen cfg.localAddr then
      [StartEvent.startTracker, StartEvent.startAcceptLoop]
    else
      [StartEvent.startTracker, StartEvent.fatalExit "listen failed"]

/-! ### Helper lemmas -/

theorem colon_mem_joinHostPort (h p : String) : ':' ∈ (joinHostPort h p).data := by
  unfold joinHostPort
  split
  · simp [String.data_append]
  · simp [String.data_append]

theorem render_ne_nilStr (a : TCPAddr) : TCPAddr.render a ≠ "<nil>" := by
  intro heq
  have hm : ':' ∈ ("<nil>" : String).data := heq ▸ colon_mem_joinHostPort a.host (toString a.port)
  exact absurd hm (by decide)

theorem addrString_eq_nilStr_iff (x : Option TCPAddr) : addrString x = "<nil>" ↔ x = none := by
  cases x with
  | none => simp [addrString]
  | some a => simp [addrString, render_ne_nilStr a]

theorem netDial_some (env : NetEnv) (a : TCPAddr) (t : Nat) :
    netDial env (addrString (some a)) t = env.dial (TCPAddr.render a) t := by
  simp [netDial, addrString, render_ne_nilStr a]

theorem netDial_none (env : NetEnv) (t : Nat) :
    netDial env (addrString none) t = false := by
  simp [netDial, addrString]

theorem closedGens_append (xs ys : List TrackerEvent) :
    closedGens (xs ++ ys) = closedGens xs ++ closedGens ys := by
  simp [closedGens, List.filterMap_append]

/-- In the no-change branch of an `update_master` iteration the state is
untouched and no channel is closed. -/
theorem update_masterStep_ok_eq (st : TrackerState) (a : Option TCPAddr)
    (h : addrString a = addrString st.masterAddr) :
    (update_masterStep st (Except.ok a)).1 = st ∧
      closedGens (update_masterStep st (Except.ok a)).2 = [] := by
  simp only [update_masterStep, if_pos h]
  cases hm : st.masterAddr.isNone <;> simp [hm, closedGens]

/-- In the change branch of an `update_master` iteration the state takes the
candidate, the generation advances, and exactly the old channel closes. -/
theorem update_masterStep_ok_ne (st : TrackerState) (a : Option TCPAddr)
    (h : ¬ addrString a = addrString st.masterAddr) :
    (update_masterStep st (Except.ok a)).1 =
        { masterAddr := a, gen := st.gen + 1, closes := st.closes + 1 } ∧
      closedGens (update_masterStep st (Except.ok a)).2 = [st.gen] := by
  simp only [update_masterStep, if_neg h]
  cases hm : a.isNone <;> simp [hm, closedGens]

/-- Any element of `List.range'` with step 1 occurs exactly once, and nothing
outside it occurs. -/
theorem count_range' (g : Nat) : ∀ (n s : Nat),
    (List.range' s n).count g = if s ≤ g ∧ g < s + n then 1 else 0 := by
  intro n
  induction n with
  | zero =>
    intro s
    simp
    rw [if_neg (by omega)]
  | succ n ih =>
    intro s
    rw [List.range'_succ, List.count_cons, ih (s + 1)]
    simp only [beq_iff_eq]
    by_cases hg : s = g
    · rw [if_neg (by omega), if_pos hg, if_pos (by omega)]
    · rw [if_neg hg]
      by_cases hin : s + 1 ≤ g ∧ g < s + 1 + n
      · rw [if_pos hin, if_pos (by omega)]
      · rw [if_neg hin, if_neg (by omega)]

/-- The trace-level invariant of the tracker loop on successful polls: the
closed channels are exactly the consecutive generations starting at the
current one, one per detected change, and the live generation advances by
the number of changes. -/
theorem runTracker_spec (rs : List (Option TCPAddr)) : ∀ st : TrackerState,
    closedGens (runTracker st (rs.map Except.ok)).2 =
        List.range' st.gen (countChanges st.masterAddr rs) ∧
      (runTracker st (rs.map Except.ok)).1.gen = st.gen + countChanges st.masterAddr rs := by
  induction rs with
  | nil => intro st; simp [runTracker, closedGens, countChanges]
  | cons a rest ih =>
    intro st
    simp only [List.map_cons, runTracker, countChanges]
    by_cases h : addrString a = addrString st.masterAddr
    · have hstep := update_masterStep_ok_eq st a h
      rw [if_pos h, closedGens_append, hstep.1, hstep.2]
      exact ⟨by rw [(ih st).1]; simp, (ih st).2⟩
    · have hstep := update_masterStep_ok_ne st a h
      rw [if_neg h, closedGens_append, hstep.1, hstep.2]
      have ihr := ih { masterAddr := a, gen := st.gen + 1, closes := st.closes + 1 }
      simp only at ihr
      constructor
      · rw [ihr.1, List.range'_succ]
        simp
      · rw [ihr.2]
        omega

/-! ### Claims -/

/-- Claim C1 counterexample: with the stored master at 10.0.0.1:6380, a
polling iteration whose discovery returns a nil candidate with a nil error
(every sentinel candidate unusable) does not leave the shared state alone,
contrary to the claim: the stored Primary Address is replaced (by nil) and
the current generation channel is closed, because the change test compares
`possibleMaster.String()` with `masterAddr.String()` and a nil address
renders as the string `<nil>`. -/
theorem claim_C1_counterexample :
    (update_masterStep
          { masterAddr := some { host := "10.0.0.1", port := 6380 }, gen := 0, closes := 0 }
          (Except.ok none)).1.masterAddr ≠
        some { host := "10.0.0.1", port := 6380 } ∧
      closedGens
          (update_masterStep
            { masterAddr := some { host := "10.0.0.1", port := 6380 }, gen := 0, closes := 0 }
            (Except.ok none)).2 =
        [0] := by
  decide

/-- Claim C1 (amended): `update_master` compares rendered address strings and
a nil candidate renders as `<nil>`.  So a poll returning a nil candidate
with no error is a no-op exactly when the stored Primary Address is already
nil; when a last known good address is stored, the tracker overwrites it
with nil and closes (and replaces) the generation channel.  In general an
update and a firing occur exactly when the rendered candidate string
differs from the rendered stored string. -/
theorem claim_C1 (st : TrackerState) :
    (st.masterAddr = none →
      update_masterStep st (Except.ok none) = (st, [TrackerEvent.sleep 1000])) ∧
    (st.masterAddr ≠ none →
      (update_masterStep st (Except.ok none)).1.masterAddr = none ∧
        closedGens (update_masterStep st (Except.ok none)).2 = [st.gen]) ∧
    (∀ c : Option TCPAddr, addrString c = addrString st.masterAddr →
      (update_masterStep st (Except.ok c)).1 = st ∧
        closedGens (update_masterStep st (Except.ok c)).2 = []) ∧
    (∀ c : Option TCPAddr, addrString c ≠ addrString st.masterAddr →
      (update_masterStep st (Except.ok c)).1.masterAddr = c ∧
        (update_masterStep st (Except.ok c)).1.gen = st.gen + 1 ∧
        closedGens (update_masterStep st (Except.ok c)).2 = [st.gen]) := by
  refine ⟨?_, ?_, ?_, ?_⟩
  · intro h
    simp [update_masterStep, h]
  · intro h
    have hne : ¬ addrString (none : Option TCPAddr) = addrString st.masterAddr := by
      intro hh
      exact h ((addrString_eq_nilStr_iff st.masterAddr).1 hh.symm)
    have hstep := update_masterStep_ok_ne st none hne
    exact ⟨by rw [hstep.1], hstep.2⟩
  · intro c hc
    exact update_masterStep_ok_eq st c hc
  · intro c hc
    have hstep := update_masterStep_ok_ne st c hc
    exact ⟨by rw [hstep.1], by rw [hstep.1], hstep.2⟩

/-- Claim C1 witness: at a concrete state holding a last known good address,
the amended claim evaluates as stated. -/
theorem claim_C1_witness :
    (update_masterStep
          { masterAddr := some { host := "10.0.0.2", port := 6380 }, gen := 5, closes := 2 }
          (Except.ok none)).1.masterAddr = none ∧
      closedGens
          (update_masterStep
            { masterAddr := some { host := "10.0.0.2", port := 6380 }, gen := 5, closes := 2 }
            (Except.ok none)).2 =
        [5] :=
  (claim_C1
      { masterAddr := some { host := "10.0.0.2", port := 6380 }, gen := 5, closes := 2 }).2.1
    (by decide)

/-- Claim C2: along any sequence of discovered (non-nil) primary addresses
containing N changes, the tracker closes the generation channel exactly N
times: the closed generations are precisely the N consecutive generations
starting at the current one, and the live generation afterwards has
advanced by N — after each close the channel has been replaced by a fresh
one.  A session captures the generation current when it starts and a firing
only reaches sessions holding that generation: such a session observes
exactly one firing when a later change ends its epoch and none otherwise,
and never a firing of a channel created after it started. -/
theorem claim_C2 (st : TrackerState) (rs : List TCPAddr) :
    closedGens (runTracker st ((rs.map some).map Except.ok)).2 =
        List.range' st.gen (countChanges st.masterAddr (rs.map some)) ∧
      (runTracker st ((rs.map some).map Except.ok)).1.gen =
        st.gen + countChanges st.masterAddr (rs.map some) ∧
      ∀ sessionGen : Nat,
        sessionObservedFirings sessionGen (runTracker st ((rs.map some).map Except.ok)).2 =
          if st.gen ≤ sessionGen ∧
              sessionGen < st.gen + countChanges st.masterAddr (rs.map some) then
            1
          else 0 := by
  refine ⟨(runTracker_spec (rs.map some) st).1, (runTracker_spec (rs.map some) st).2, ?_⟩
  intro g
  rw [sessionObservedFirings, (runTracker_spec (rs.map some) st).1, count_range']

/-- Claim C2 witness: two successive changes from a stored master close
exactly generations 7 and 8. -/
theorem claim_C2_witness :
    closedGens
        (runTracker { masterAddr := some { host := "10.0.0.1", port := 6380 }, gen := 7, closes := 0 }
          (([{ host := "10.0.0.2", port := 6380 }, { host := "10.0.0.3", port := 6380 }].map
              (some : TCPAddr → Option TCPAddr)).map Except.ok)).2 =
      [7, 8] := by
  rw [(claim_C2
      { masterAddr := some { host := "10.0.0.1", port := 6380 }, gen := 7, closes := 0 }
      [{ host := "10.0.0.2", port := 6380 }, { host := "10.0.0.3", port := 6380 }]).1]
  decide

/-- Claim C4: a successful poll returning a non-nil candidate whose rendered
address equals the current Primary Address is a no-op on shared state: the
state is unchanged and the iteration consists of the steady-state sleep
only — in particular no channel close and no changed-address log line. -/
theorem claim_C4 (st : TrackerState) (a : TCPAddr)
    (h : addrString (some a) = addrString st.masterAddr) :
    update_masterStep st (Except.ok (some a)) = (st, [TrackerEvent.sleep 250]) ∧
      closedGens (update_masterStep st (Except.ok (some a))).2 = [] ∧
      ∀ o n, TrackerEvent.logChanged o n ∉ (update_masterStep st (Except.ok (some a))).2 := by
  have hmast : st.masterAddr ≠ none := by
    intro hn
    rw [hn] at h
    exact render_ne_nilStr a h
  have heq : update_masterStep st (Except.ok (some a)) = (st, [TrackerEvent.sleep 250]) := by
    simp only [update_masterStep, if_pos h]
    cases hm : st.masterAddr with
    | none => exact absurd hm hmast
    | some b => simp
  refine ⟨heq, ?_, ?_⟩
  · rw [heq]
    rfl
  · intro o n
    rw [heq]
    simp

/-- Claim C4 witness: a concrete state and an equal-rendering candidate. -/
theorem claim_C4_witness :
    update_masterStep
        { masterAddr := some { host := "10.0.0.1", port := 6380 }, gen := 3, closes := 1 }
        (Except.ok (some { host := "10.0.0.1", port := 6380 })) =
      ({ masterAddr := some { host := "10.0.0.1", port := 6380 }, gen := 3, closes := 1 },
        [TrackerEvent.sleep 250]) :=
  (claim_C4
      { masterAddr := some { host := "10.0.0.1", port := 6380 }, gen := 3, closes := 1 }
      { host := "10.0.0.1", port := 6380 } (by decide)).1

/-- Probe gating along the candidate loop: a returned non-nil address passed
the reachability dial. -/
theorem getMasterAddrLoop_probe (env : NetEnv) :
    ∀ (sentinels : List (Option TCPAddr)) (a : TCPAddr),
      (getMasterAddrLoop env sentinels).1 = some a →
      env.dial (TCPAddr.render a) DialTimeout = true := by
  intro sentinels
  induction sentinels with
  | nil =>
    intro a h
    simp [getMasterAddrLoop] at h
  | cons s rest ih =>
    intro a h
    simp only [getMasterAddrLoop] at h
    by_cases hd :
        netDial env (addrString (getMasterAddrFromSentinel env s).1) DialTimeout = false
    · rw [if_pos hd] at h
      exact ih a h
    · rw [if_neg hd] at h
      have hdial : netDial env (addrString (getMasterAddrFromSentinel env s).1)
          DialTimeout = true := by
        cases hb : netDial env (addrString (getMasterAddrFromSentinel env s).1) DialTimeout
        · exact absurd hb hd
        · rfl
      rw [h] at hdial
      rw [netDial_some] at hdial
      exact hdial

/-- Claim C3: whenever `getMasterAddr` returns a non-nil address, that
address passed the live reachability probe (its dial with the discovery
timeout succeeded); and a candidate whose probe dial fails is skipped — the
loop simply proceeds to the remaining sentinels. -/
theorem claim_C3 (env : NetEnv) :
    (∀ (sentinelAddress masterName : String) (a : TCPAddr),
        (getMasterAddr env sentinelAddress masterName).1 = some a →
        env.dial (TCPAddr.render a) DialTimeout = true) ∧
    (∀ (s : Option TCPAddr) (rest : List (Option TCPAddr)),
        netDial env (addrString (getMasterAddrFromSentinel env s).1) DialTimeout = false →
        getMasterAddrLoop env (s :: rest) = getMasterAddrLoop env rest) := by
  constructor
  · intro sa mn a h
    simp only [getMasterAddr] at h
    split at h
    · simp at h
    · exact getMasterAddrLoop_probe env _ a h
  · intro s rest hd
    simp only [getMasterAddrLoop]
    rw [if_pos hd]

/-- A network in which one sentinel resolves, answers with a well-formed
reply naming 10.0.0.1:6380, and every dial succeeds. -/
def envHealthy : NetEnv where
  splitHostPort := fun s =>
    if s = "sent.example:26379" then some ("sent.example", "26379") else none
  lookupIP := fun h => if h = "sent.example" then some ["10.0.0.5"] else none
  resolveTCPAddr := fun s =>
    if s = "10.0.0.5:26379" then some { host := "10.0.0.5", port := 26379 }
    else if s = "10.0.0.1:6380" then some { host := "10.0.0.1", port := 6380 }
    else none
  dial := fun _ _ => true
  readSentinel := fun _ => some "*2\r\n$9\r\n10.0.0.1\r\n$4\r\n6380"
  listen := fun _ => true

/-- Claim C3 witness: in the healthy network the returned master is the
probed 10.0.0.1:6380, and a nil candidate (which dials as the unparsable
string) is skipped by the loop. -/
theorem claim_C3_witness :
    envHealthy.dial (TCPAddr.render { host := "10.0.0.1", port := 6380 }) DialTimeout = true ∧
      getMasterAddrLoop envHealthy [none] = getMasterAddrLoop envHealthy [] :=
  ⟨(claim_C3 envHealthy).1 "sent.example:26379" "mymaster"
      { host := "10.0.0.1", port := 6380 } (by decide),
    (claim_C3 envHealthy).2 none [] (by decide)⟩

/-- A network whose resolver fails on every address, as `net.ResolveTCPAddr`
does on `10.0.0.1:badport` (the port is neither a number nor a known
service name). -/
def envNoResolve : NetEnv where
  splitHostPort := fun _ => none
  lookupIP := fun _ => none
  resolveTCPAddr := fun _ => none
  dial := fun _ _ => false
  readSentinel := fun _ => none
  listen := fun _ => false

/-- Claim C5 counterexample: a reply with 5 CRLF-delimited parts whose port
field is not resolvable still produces an error from
`getMasterAddrFromSentinelResponse`, so the claim that an error occurs
exactly when there are fewer than 5 parts is false. -/
theorem claim_C5_counterexample :
    5 ≤ (responsePartsOf "*2\r\n$9\r\n10.0.0.1\r\n$7\r\nbadport").length ∧
      (getMasterAddrFromSentinelResponse envNoResolve
          "*2\r\n$9\r\n10.0.0.1\r\n$7\r\nbadport").2 ≠ none := by
  decide

/-- Claim C5 (amended): splitting the response on CRLF, fewer than 5 parts
yields the malformed-reply error and a nil address (the function is total,
so the poller cannot crash); with 5 or more parts the result is exactly the
resolution of the address built from part 2 as host and part 4 as port —
which itself errors precisely when that resolution fails. -/
theorem claim_C5 (env : NetEnv) (response : String) :
    ((responsePartsOf response).length < 5 →
      getMasterAddrFromSentinelResponse env response =
        (none, some "Couldnt get update_master address from sentinel.")) ∧
    (5 ≤ (responsePartsOf response).length →
      getMasterAddrFromSentinelResponse env response =
        resolveTCPAddrPair env
          ((responsePartsOf response).getD 2 "" ++ ":" ++
            (responsePartsOf response).getD 4 "")) ∧
    ((getMasterAddrFromSentinelResponse env response).2 ≠ none ↔
      (responsePartsOf response).length < 5 ∨
        env.resolveTCPAddr
            ((responsePartsOf response).getD 2 "" ++ ":" ++
              (responsePartsOf response).getD 4 "") = none) := by
  by_cases h : (responsePartsOf response).length < 5
  · refine ⟨fun _ => ?_, fun h5 => absurd h (by omega), ?_⟩
    · simp only [getMasterAddrFromSentinelResponse, if_pos h]
    · simp only [getMasterAddrFromSentinelResponse, if_pos h]
      simp [h]
  · refine ⟨fun hlt => absurd hlt h, fun _ => ?_, ?_⟩
    · simp only [getMasterAddrFromSentinelResponse, if_neg h]
    · simp only [getMasterAddrFromSentinelResponse, if_neg h, resolveTCPAddrPair]
      cases hr : env.resolveTCPAddr
          ((responsePartsOf response).getD 2 "" ++ ":" ++
            (responsePartsOf response).getD 4 "") <;> simp [h]

/-- Claim C5 witness: a short reply takes the malformed branch, and a
well-formed 5-part reply resolves host part 2 with port part 4. -/
theorem claim_C5_witness :
    getMasterAddrFromSentinelResponse envHealthy "OK" =
        (none, some "Couldnt get update_master address from sentinel.") ∧
      getMasterAddrFromSentinelResponse envHealthy "*2\r\n$9\r\n10.0.0.1\r\n$4\r\n6380" =
        (some { host := "10.0.0.1", port := 6380 }, none) := by
  constructor
  · exact (claim_C5 envHealthy "OK").1 (by decide)
  · rw [(claim_C5 envHealthy "*2\r\n$9\r\n10.0.0.1\r\n$4\r\n6380").2.1 (by decide)]
    decide

/-- Exhausting the candidate loop without a parsing, reachable candidate is
the nil-nil outcome. -/
theorem getMasterAddrLoop_noUsable (env : NetEnv) :
    ∀ l : List (Option TCPAddr),
      (∀ s ∈ l,
        ¬((getMasterAddrFromSentinel env s).1 ≠ none ∧
          env.dial (addrString (getMasterAddrFromSentinel env s).1) DialTimeout = true)) →
      getMasterAddrLoop env l = (none, none) := by
  intro l
  induction l with
  | nil => intro _; rfl
  | cons s rest ih =>
    intro hl
    have hs := hl s (List.mem_cons_self s rest)
    have hd : netDial env (addrString (getMasterAddrFromSentinel env s).1)
        DialTimeout = false := by
      cases hm : (getMasterAddrFromSentinel env s).1 with
      | none => exact netDial_none env DialTimeout
      | some a =>
        rw [netDial_some]
        cases hb : env.dial (TCPAddr.render a) DialTimeout
        · rfl
        · rw [hm] at hs
          refine absurd ⟨by simp, ?_⟩ hs
          rw [show addrString (some a) = TCPAddr.render a from rfl]
          exact hb
    simp only [getMasterAddrLoop]
    rw [if_pos hd]
    exact ih fun x hx => hl x (List.mem_cons_of_mem s hx)

/-- Claim C6: when the sentinel address splits and its host looks up in DNS
but no sentinel candidate yields an address that both parses and is
reachable, `getMasterAddr` returns a nil address together with a nil error —
the try-again-later outcome, not a hard failure. -/
theorem claim_C6 (env : NetEnv) (sentinelAddress masterName host port : String)
    (ips : List String)
    (hsplit : env.splitHostPort sentinelAddress = some (host, port))
    (hlookup : env.lookupIP host = some ips)
    (hnousable : ∀ s ∈ ips.map fun ip => env.resolveTCPAddr (joinHostPort ip port),
      ¬((getMasterAddrFromSentinel env s).1 ≠ none ∧
        env.dial (addrString (getMasterAddrFromSentinel env s).1) DialTimeout = true)) :
    getMasterAddr env sentinelAddress masterName = (none, none) := by
  simp only [getMasterAddr, getSentinels, hsplit, hlookup, Option.getD]
  exact getMasterAddrLoop_noUsable env _ hnousable

/-- A network in which the sentinel host resolves to two IPs but every dial
fails: all sentinels are down. -/
def envAllDown : NetEnv where
  splitHostPort := fun s =>
    if s = "sent.example:26379" then some ("sent.example", "26379") else none
  lookupIP := fun h => if h = "sent.example" then some ["10.0.0.5", "10.0.0.6"] else none
  resolveTCPAddr := fun s =>
    if s = "10.0.0.5:26379" then some { host := "10.0.0.5", port := 26379 }
    else if s = "10.0.0.6:26379" then some { host := "10.0.0.6", port := 26379 }
    else none
  dial := fun _ _ => false
  readSentinel := fun _ => none
  listen := fun _ => false

/-- Claim C6 witness: with both sentinels down, discovery returns the
nil-address nil-error pair. -/
theorem claim_C6_witness :
    getMasterAddr envAllDown "sent.example:26379" "mymaster" = (none, none) :=
  claim_C6 envAllDown "sent.example:26379" "mymaster" "sent.example" "26379"
    ["10.0.0.5", "10.0.0.6"] (by decide) (by decide) (by decide)

/-- Claim C7: a session whose dial of the master fails logs the failure,
closes the client connection and returns: its whole trace is the failed
dial, the log line and the client close — exactly one dial attempt, so no
retry, and no relay is started.  The dial uses the 50ms session timeout
`ProxyDialTimeout`, which is strictly shorter than the 100ms discovery
probe timeout `DialTimeout`. -/
theorem claim_C7 (env : NetEnv) (remoteAddr : Option TCPAddr)
    (h : netDial env (addrString remoteAddr) ProxyDialTimeout = false) :
    proxy env remoteAddr =
        [ProxyEvent.dialAttempt (addrString remoteAddr) ProxyDialTimeout,
          ProxyEvent.logNoConn, ProxyEvent.closeLocal] ∧
      ((proxy env remoteAddr).filter isDialAttempt).length = 1 ∧
      (∀ d, ProxyEvent.startPipe d ∉ proxy env remoteAddr) ∧
      ProxyDialTimeout < DialTimeout := by
  have heq : proxy env remoteAddr =
      [ProxyEvent.dialAttempt (addrString remoteAddr) ProxyDialTimeout,
        ProxyEvent.logNoConn, ProxyEvent.closeLocal] := by
    simp only [proxy, if_pos h]
  refine ⟨heq, ?_, ?_, by decide⟩
  · rw [heq]
    rfl
  · intro d
    rw [heq]
    simp

/-- Claim C7 witness: with every dial refused, a session toward
10.0.0.9:6379 produces exactly the fail-fast trace. -/
theorem claim_C7_witness :
    proxy envAllDown (some { host := "10.0.0.9", port := 6379 }) =
        [ProxyEvent.dialAttempt (addrString (some { host := "10.0.0.9", port := 6379 }))
            ProxyDialTimeout,
          ProxyEvent.logNoConn, ProxyEvent.closeLocal] ∧
      ProxyDialTimeout < DialTimeout :=
  ⟨(claim_C7 envAllDown (some { host := "10.0.0.9", port := 6379 }) (by decide)).1,
    (claim_C7 envAllDown (some { host := "10.0.0.9", port := 6379 }) (by decide)).2.2.2⟩

/-- Claim C8: before the first successful discovery the shared master slot
still holds its nil zero value; a session accepted then dials the rendered
string `<nil>`, which fails address parsing, so in every environment the
dial errors and the session logs, closes the client connection and
terminates without starting any relay. -/
theorem claim_C8 (env : NetEnv) :
    proxy env initialMasterAddr =
        [ProxyEvent.dialAttempt "<nil>" ProxyDialTimeout,
          ProxyEvent.logNoConn, ProxyEvent.closeLocal] ∧
      ∀ d, ProxyEvent.startPipe d ∉ proxy env initialMasterAddr := by
  have heq : proxy env initialMasterAddr =
      [ProxyEvent.dialAttempt "<nil>" ProxyDialTimeout,
        ProxyEvent.logNoConn, ProxyEvent.closeLocal] := by
    simp only [proxy, initialMasterAddr, netDial_none, addrString]
    rfl
  refine ⟨heq, ?_⟩
  intro d
  rw [heq]
  simp

/-- Claim C8 witness: in the healthy network a session accepted before the
first discovery produces exactly the fail-fast trace. -/
theorem claim_C8_witness :
    proxy envHealthy initialMasterAddr =
      [ProxyEvent.dialAttempt "<nil>" ProxyDialTimeout,
        ProxyEvent.logNoConn, ProxyEvent.closeLocal] :=
  (claim_C8 envHealthy).1

/-- Claim C9: an empty master name, or a listen address that fails to
resolve, makes startup exit fatally before either loop starts; with both
checks passing the tracker loop is started, and the accept loop follows
once the listener binds. -/
theorem claim_C9 (env : NetEnv) (cfg : Config) :
    (cfg.masterName = "" →
      mainStartup env cfg =
          [StartEvent.fatalExit "Name of the master redis node is required argument."] ∧
        StartEvent.startTracker ∉ mainStartup env cfg ∧
        StartEvent.startAcceptLoop ∉ mainStartup env cfg) ∧
    (env.resolveTCPAddr cfg.localAddr = none →
      StartEvent.startTracker ∉ mainStartup env cfg ∧
        StartEvent.startAcceptLoop ∉ mainStartup env cfg ∧
        ∃ msg, mainStartup env cfg = [StartEvent.fatalExit msg]) ∧
    (cfg.masterName ≠ "" → env.resolveTCPAddr cfg.localAddr ≠ none →
      StartEvent.startTracker ∈ mainStartup env cfg ∧
        (env.listen cfg.localAddr = true →
          mainStartup env cfg = [StartEvent.startTracker, StartEvent.startAcceptLoop])) := by
  refine ⟨?_, ?_, ?_⟩
  · intro h
    simp [mainStartup, checkArgs, h]
  · intro h
    by_cases hm : cfg.masterName = ""
    · simp [mainStartup, checkArgs, hm]
    · simp [mainStartup, checkArgs, hm, h]
  · intro hm hr
    cases hres : env.resolveTCPAddr cfg.localAddr with
    | none => exact absurd hres hr
    | some a =>
      constructor
      · by_cases hl : env.listen cfg.localAddr <;>
          simp [mainStartup, checkArgs, hm, hres, hl]
      · intro hl
        simp [mainStartup, checkArgs, hm, hres, hl]

/-- Claim C9 witness: a missing master name exits fatally; with a resolvable
listen address and a name, the healthy network starts both loops. -/
theorem claim_C9_witness :
    mainStartup envHealthy
        { masterName := "", localAddr := "10.0.0.5:26379", sentinelAddr := "s" } =
        [StartEvent.fatalExit "Name of the master redis node is required argument."] ∧
      mainStartup envHealthy
          { masterName := "mymaster", localAddr := "10.0.0.5:26379", sentinelAddr := "s" } =
        [StartEvent.startTracker, StartEvent.startAcceptLoop] :=
  ⟨((claim_C9 envHealthy
        { masterName := "", localAddr := "10.0.0.5:26379", sentinelAddr := "s" }).1 rfl).1,
    ((claim_C9 envHealthy
        { masterName := "mymaster", localAddr := "10.0.0.5:26379", sentinelAddr := "s" }).2.2
      (by decide) (by decide)).2 (by decide)⟩

/-- Claim C10: when the host:port split and the DNS lookup both succeed,
`getSentinels` returns a nil error and one entry per resolved IP.  An IP
whose TCP-address resolution fails contributes a nil entry — only logged,
never aborting the poll or surfacing as the returned error — and the caller
treats a nil entry as an unreachable sentinel: querying it yields no
address (its dial string is unparsable) and the candidate loop skips it. -/
theorem claim_C10 (env : NetEnv) (sentinelAddress host port : String) (ips : List String)
    (hsplit : env.splitHostPort sentinelAddress = some (host, port))
    (hlookup : env.lookupIP host = some ips) :
    getSentinels env sentinelAddress =
        (some (ips.map fun ip => env.resolveTCPAddr (joinHostPort ip port)), none) ∧
      ((getSentinels env sentinelAddress).1.getD []).length = ips.length ∧
      (getMasterAddrFromSentinel env none).1 = none ∧
      ∀ rest, getMasterAddrLoop env (none :: rest) = getMasterAddrLoop env rest := by
  have hgs : getSentinels env sentinelAddress =
      (some (ips.map fun ip => env.resolveTCPAddr (joinHostPort ip port)), none) := by
    simp only [getSentinels, hsplit, hlookup]
  have hnil : (getMasterAddrFromSentinel env none).1 = none := by
    simp only [getMasterAddrFromSentinel, netDial_none]
    rfl
  refine ⟨hgs, ?_, hnil, ?_⟩
  · rw [hgs]
    simp
  · intro rest
    simp only [getMasterAddrLoop]
    rw [if_pos (by rw [hnil]; exact netDial_none env DialTimeout)]

/-- A network where the sentinel host resolves to two IPs and resolution of
the second one fails. -/
def envHalfResolve : NetEnv where
  splitHostPort := fun s =>
    if s = "sent.example:26379" then some ("sent.example", "26379") else none
  lookupIP := fun h => if h = "sent.example" then some ["10.0.0.5", "fe80::1%eth0"] else none
  resolveTCPAddr := fun s =>
    if s = "10.0.0.5:26379" then some { host := "10.0.0.5", port := 26379 } else none
  dial := fun _ _ => false
  readSentinel := fun _ => none
  listen := fun _ => false

/-- Claim C10 witness: with one of two IPs failing to resolve,
`getSentinels` still returns a nil error and a two-entry list whose second
entry is nil, and the candidate loop skips a nil entry. -/
theorem claim_C10_witness :
    getSentinels envHalfResolve "sent.example:26379" =
        (some [some { host := "10.0.0.5", port := 26379 }, none], none) ∧
      getMasterAddrLoop envHalfResolve [none] = getMasterAddrLoop envHalfResolve [] := by
  have h := claim_C10 envHalfResolve "sent.example:26379" "sent.example" "26379"
    ["10.0.0.5", "fe80::1%eth0"] (by decide) (by decide)
  refine ⟨?_, h.2.2.2 []⟩
  rw [h.1]
  decide

end RSProxy
